import Mathlib

/-!
Verification of the LLMstudio engine core (provider abstraction, usage and
metrics calculators, streaming terminator frame, tokenizer resolver and the
model-listing endpoint) against its natural-language specification.

The embedding translates the Python source shallowly:
* Python floats (timestamps, costs, latencies) become `ℚ`;
* Python `int` becomes `ℤ`, token counts become `ℕ`;
* a Python `dict` used as a finite mapping becomes an association list
  `List (String × _)` read through `List.lookup`;
* fallible code returns `Except PyError _`, where `PyError` collects the
  exception classes the embedded code can raise (`ZeroDivisionError`,
  `KeyError`, `TypeError`, `AttributeError`, and FastAPI's `HTTPException`);
* the external tokenizer libraries (tiktoken, anthropic, HF tokenizers) are
  opaque to the source, so a tokenizer is abstracted as its `encode`
  function `String → List ℕ`, and the resolver's three concrete choices as
  tags of an enumeration.
-/

namespace LLMstudio

/-- `ModelConfig` from `engine/__init__.py`: operating mode, token window and
per-token costs of one model. -/
structure ModelConfig where
  mode : String
  max_tokens : ℤ
  input_token_cost : ℚ
  output_token_cost : ℚ
deriving Repr, DecidableEq

/-- `ProviderConfig` from `engine/__init__.py`. The `parameters` field
(`Optional[Dict[str, Any]]`) is not consulted by any embedded operation and is
omitted. `models` is `Optional` in the source, hence the `Option` here. -/
structure ProviderConfig where
  id : String
  name : String
  chat : Bool
  embed : Bool
  keys : Option (List String)
  models : Option (List (String × ModelConfig))
deriving Repr, DecidableEq

/-- `EngineConfig` from `engine/__init__.py`: the provider table. -/
structure EngineConfig where
  providers : List (String × ProviderConfig)
deriving Repr, DecidableEq

/-- The `model_dump()` view of a pydantic parameter bag: a finite mapping from
field name to (stringified) value. Only its dump is ever observed by the
embedded code. -/
structure ParamBag where
  fields : List (String × String)
deriving Repr, DecidableEq

/-- `ChatRequest` from `providers/provider.py`. The `Optional[bool]` flags
default to `False`; their `None` inhabitant is never distinguished from
`False` by the embedded code, so they are plain `Bool`. -/
structure ChatRequest where
  api_key : Option String
  model : String
  chat_input : String
  parameters : Option ParamBag
  is_stream : Bool
  has_end_token : Bool
deriving Repr, DecidableEq

/-- The dictionary returned by `Provider.calculate_usage`. -/
structure UsageRecord where
  input_tokens : ℕ
  output_tokens : ℕ
  total_tokens : ℕ
  cost : ℚ
deriving Repr, DecidableEq

/-- The dictionary returned by `Provider.calculate_metrics`. -/
structure MetricsRecord where
  latency : ℚ
  time_to_first_token : ℚ
  inter_token_latency : ℚ
  tokens_per_second : ℚ
deriving Repr, DecidableEq

/-- The dictionary returned by `Provider.generate_response`. The generated
`uuid` and the `time.time()` wall clock are ambient nondeterminism; the
embedding receives them as explicit arguments. -/
structure ChatResponse where
  id : String
  chat_input : String
  chat_output : String
  timestamp : ℚ
  model : String
  usage : UsageRecord
  metrics : MetricsRecord
  parameters : List (String × String)
deriving Repr, DecidableEq

/-- The Python exception classes the embedded code can raise. -/
inductive PyError where
  | zeroDivisionError
  | keyError
  | typeError
  | attributeError
  | httpException (status : ℕ) (detail : String)
deriving Repr, DecidableEq

/-- A provider adapter: its static configuration together with the resolved
tokenizer, abstracted as the external library's `encode` function. -/
structure Provider where
  config : ProviderConfig
  tokenizer : String → List ℕ

/-- `Provider.END_TOKEN`. -/
def END_TOKEN : String := "<END_TOKEN>"

/-- `Provider.chat` (the base class body): raise `HTTPException(400, ...)` when
the requested model is absent from `self.config.models`. `chat_request.model
not in None` is a `TypeError` in Python, hence the first branch. The second
component counts upstream network calls: the base method performs none. -/
def chat (p : Provider) (req : ChatRequest) : Except PyError Unit × ℕ :=
  match p.config.models with
  | none => (.error .typeError, 0)
  | some ms =>
    if (List.lookup req.model ms).isSome then
      (.ok (), 0)
    else
      (.error (.httpException 400
        ("Model " ++ req.model ++ " is not supported by " ++ p.config.name)), 0)

/-- `Provider.generate_response`: builds the response dictionary, echoing the
request's parameter bag via `request.parameters.model_dump()`; when
`parameters` is `None` that dereference is an `AttributeError`. -/
def generate_response (id : String) (timestamp : ℚ) (request : ChatRequest)
    (chat_output : String) (usage : UsageRecord) (metrics : MetricsRecord) :
    Except PyError ChatResponse :=
  match request.parameters with
  | none => .error .attributeError
  | some ps =>
    .ok { id := id
          chat_input := request.chat_input
          chat_output := chat_output
          timestamp := timestamp
          model := request.model
          usage := usage
          metrics := metrics
          parameters := ps.fields }

/-- `Provider.calculate_metrics`. In Python, `sum(token_times) /
len(token_times)` raises `ZeroDivisionError` when the tuple is empty, and
`token_count / total_time` raises `ZeroDivisionError` when `total_time` is
zero; the dictionary entries are evaluated in that order. -/
def calculate_metrics (start_time end_time first_token_time : ℚ)
    (token_times : List ℚ) (token_count : ℤ) :
    Except PyError MetricsRecord :=
  let total_time := end_time - start_time
  if token_times.length = 0 then .error .zeroDivisionError
  else if total_time = 0 then .error .zeroDivisionError
  else .ok
    { latency := total_time
      time_to_first_token := first_token_time - start_time
      inter_token_latency := token_times.sum / token_times.length
      tokens_per_second := (token_count : ℚ) / total_time }

/-- `Provider.calculate_usage`: `self.config.models[model]` is a `TypeError`
when `models` is `None` and a `KeyError` when the key is absent; otherwise the
token counts are the lengths of the tokenizer's encodings and the cost is the
sum of per-token costs times counts. -/
def calculate_usage (p : Provider) (input output model : String) :
    Except PyError UsageRecord :=
  match p.config.models with
  | none => .error .typeError
  | some ms =>
    match List.lookup model ms with
    | none => .error .keyError
    | some model_config =>
      let input_tokens := (p.tokenizer input).length
      let output_tokens := (p.tokenizer output).length
      let input_cost := model_config.input_token_cost * input_tokens
      let output_cost := model_config.output_token_cost * output_tokens
      .ok { input_tokens := input_tokens
            output_tokens := output_tokens
            total_tokens := input_tokens + output_tokens
            cost := input_cost + output_cost }

/-- The first `prec` decimal digits of `n` most significant first,
zero-padded on the left: position `i` (from the left, `0`-based) holds
`n / 10 ^ (prec - 1 - i) % 10`. For `n < 10 ^ prec` this is the zero-padded
`prec`-digit rendering Python's `:.{prec}f` uses for the fractional part. -/
def fracDigits : ℕ → ℕ → List Char
  | 0, _ => []
  | p + 1, n => Nat.digitChar (n / 10 ^ p % 10) :: fracDigits p n

/-- Python's fixed-point format specifier `:.{prec}f`, over the rational
abstraction of floats: round `q` to `prec` decimal places and print sign,
integer part, a dot, and exactly `prec` fractional digits. (Python rounds the
exact binary value of the float; over `ℚ` we round to nearest, which agrees
except on decimal ties that a binary float cannot represent exactly.) -/
def formatFixed (q : ℚ) (prec : ℕ) : String :=
  let n : ℤ := round (q * (10 : ℚ) ^ prec)
  let sign := if n < 0 then "-" else ""
  let m := n.natAbs
  sign ++ toString (m / 10 ^ prec) ++ "." ++ String.mk (fracDigits prec (m % 10 ^ prec))

/-- Rendering of a Python float with no format specifier (`f"...{cost}..."`),
over the rational abstraction: the shortest-round-trip decimal repr is
abstracted to an exact rendering. Only its position inside the terminator
frame matters for the properties proved here. -/
def pyFloatRepr (q : ℚ) : String :=
  if q.den = 1 then toString q.num ++ ".0" else toString q

/-- `Provider.get_end_token_string`: the f-string producing the in-band
terminator frame, field by field in source order. -/
def get_end_token_string (usage : UsageRecord) (metrics : MetricsRecord) : String :=
  END_TOKEN
    ++ ",input_tokens=" ++ toString usage.input_tokens
    ++ ",output_tokens=" ++ toString usage.output_tokens
    ++ ",cost=" ++ pyFloatRepr usage.cost
    ++ ",latency=" ++ formatFixed metrics.latency 5
    ++ ",time_to_first_token=" ++ formatFixed metrics.time_to_first_token 5
    ++ ",inter_token_latency=" ++ formatFixed metrics.inter_token_latency 5
    ++ ",tokens_per_second=" ++ formatFixed metrics.tokens_per_second 2

/-- The three tokenization strategies `Provider._get_tokenizer` can produce.
They are objects of three distinct external libraries (`Anthropic()
.get_tokenizer()`, `Tokenizer.from_pretrained("Cohere/command-nightly")`,
`tiktoken.get_encoding("cl100k_base")`), abstracted here as tags. -/
inductive TokenizerStrategy where
  | anthropicTokenizer
  | cohereCommandNightly
  | cl100kBase
deriving Repr, DecidableEq

/-- `Provider._get_tokenizer`: dictionary dispatch on `self.config.provider`
with `tiktoken.get_encoding("cl100k_base")` as the `.get` default. -/
def _get_tokenizer (provider : String) : TokenizerStrategy :=
  if provider = "anthropic" then .anthropicTokenizer
  else if provider = "cohere" then .cohereCommandNightly
  else .cl100kBase

/-- One provider's entry in the `get_models` result: its display `name` and
the list of its configured model identifiers. -/
structure ProviderModels where
  name : String
  models : List String
deriving Repr, DecidableEq

/-- The two shapes `get_models` can return: the whole mapping (no filter, or a
falsy filter) or a single provider's entry (truthy filter). -/
inductive GetModelsResult where
  | all (table : List (String × ProviderModels))
  | one (entry : ProviderModels)
deriving Repr, DecidableEq

/-- The `all_models` table `get_models` builds: providers are skipped when a
truthy `provider` filter is given and does not match (`if provider and
provider_name != provider: continue`), and when `provider_config.models` is
falsy (`None` or the empty dict). -/
def modelsTable (config : EngineConfig) (provider : Option String) :
    List (String × ProviderModels) :=
  config.providers.filterMap fun pr =>
    if (match provider with | some s => s ≠ "" | none => false)
        && !(provider = some pr.1) then
      none
    else
      match pr.2.models with
      | none => none
      | some ms =>
        if ms.isEmpty then none
        else some (pr.1, ProviderModels.mk pr.2.name (ms.map Prod.fst))

/-- `get_models` from `engine/__init__.py`: build `all_models`, then
`return all_models[provider] if provider else all_models`; the subscript
raises `KeyError` when the truthy filter names a provider absent from the
table it just built. -/
def get_models (config : EngineConfig) (provider : Option String) :
    Except PyError GetModelsResult :=
  let all_models := modelsTable config provider
  match provider with
  | some p =>
    if p = "" then .ok (.all all_models)
    else
      match List.lookup p all_models with
      | some entry => .ok (.one entry)
      | none => .error .keyError
  | none => .ok (.all all_models)

/-- The spec's error taxonomy for adapters (§7), as far as the modelled
operations need it. -/
inductive AdapterError where
  | unsupportedModelError (model : String)
  | missingCredentialsError
deriving Repr, DecidableEq

/-- Modelled from the spec: the credential resolution and upstream call of the
concrete provider adapters, whose `chat` overrides are not part of
`providers/provider.py` (only the base class is). Per §4.3 the adapter
validates the model before any upstream call, then "issues the upstream call
using the caller-supplied key if present, else the configured key (fails with
`MissingCredentialsError` if neither is available)". `upstream` is the
external vendor call (key and input to output); the second component counts
how many upstream calls were performed. -/
def adapter_chat (p : Provider) (req : ChatRequest)
    (upstream : String → String → String) :
    Except AdapterError String × ℕ :=
  match List.lookup req.model (p.config.models.getD []) with
  | none => (.error (.unsupportedModelError req.model), 0)
  | some _ =>
    match req.api_key.orElse fun _ => (p.config.keys.getD []).head? with
    | none => (.error .missingCredentialsError, 0)
    | some key => (.ok (upstream key req.chat_input), 1)

/-! Concrete fixtures used by witness theorems. -/

/-- A concrete model configuration for witnesses. -/
def witModelConfig : ModelConfig := ⟨"chat", 8, 2, 3⟩

/-- A concrete provider for witnesses: one model `"m"`, no keys, and a
tokenizer whose encoding of a string has one token per character. -/
def witProvider : Provider :=
  ⟨⟨"acme", "Acme", true, false, none, some [("m", witModelConfig)]⟩,
   fun s => s.toList.map Char.toNat⟩

/-! Helper lemmas. -/

theorem fracDigits_length (p : ℕ) : ∀ n : ℕ, (fracDigits p n).length = p := by
  induction p with
  | zero => intro n; rfl
  | succ p ih => intro n; simp [fracDigits, ih]

theorem digitChar_isDigit (d : ℕ) (hd : d < 10) : (Nat.digitChar d).isDigit := by
  interval_cases d <;> decide

theorem fracDigits_all_digits (p : ℕ) :
    ∀ n : ℕ, (fracDigits p n).all Char.isDigit = true := by
  induction p with
  | zero => intro n; rfl
  | succ p ih =>
    intro n
    simp only [fracDigits, List.all_cons, Bool.and_eq_true]
    exact ⟨digitChar_isDigit _ (Nat.mod_lt _ (by norm_num)), ih n⟩

/-- `formatFixed` always renders some integer part, a dot, then exactly `prec`
digit characters. -/
theorem formatFixed_shape (q : ℚ) (prec : ℕ) :
    ∃ (intPart : String) (fracChars : List Char),
      formatFixed q prec = intPart ++ "." ++ String.mk fracChars ∧
      fracChars.length = prec ∧
      fracChars.all Char.isDigit = true := by
  refine ⟨(if (round (q * (10 : ℚ) ^ prec) : ℤ) < 0 then "-" else "")
      ++ toString ((round (q * (10 : ℚ) ^ prec) : ℤ).natAbs / 10 ^ prec),
    fracDigits prec ((round (q * (10 : ℚ) ^ prec) : ℤ).natAbs % 10 ^ prec),
    rfl, fracDigits_length prec _, fracDigits_all_digits prec _⟩

/-! Claim theorems. -/

/-- Claim C1: for every input text, output text and model name present in the
provider's model mapping, `calculate_usage` returns a record whose token
counts are the lengths of the tokenizer's encodings of input and output,
whose `total_tokens` is their sum, and whose `cost` is
`input_tokens * input_token_cost + output_tokens * output_token_cost`. -/
theorem calculate_usage_spec (p : Provider) (input output model : String)
    (ms : List (String × ModelConfig)) (mc : ModelConfig)
    (hms : p.config.models = some ms) (hmc : List.lookup model ms = some mc) :
    calculate_usage p input output model = .ok
      { input_tokens := (p.tokenizer input).length
        output_tokens := (p.tokenizer output).length
        total_tokens := (p.tokenizer input).length + (p.tokenizer output).length
        cost := ((p.tokenizer input).length : ℚ) * mc.input_token_cost
          + ((p.tokenizer output).length : ℚ) * mc.output_token_cost } := by
  simp only [calculate_usage, hms, hmc, Except.ok.injEq, UsageRecord.mk.injEq,
    true_and, and_true]
  ring

/-- Witness for C1 at a concrete provider, texts and model. -/
theorem calculate_usage_spec_witness :
    calculate_usage witProvider "ab" "xyz" "m" = .ok
      { input_tokens := 2
        output_tokens := 3
        total_tokens := 5
        cost := (2 : ℚ) * 2 + (3 : ℚ) * 3 } := by
  have h := calculate_usage_spec witProvider "ab" "xyz" "m"
    [("m", witModelConfig)] witModelConfig rfl (by decide)
  simpa [witProvider, witModelConfig] using h

/-- Claim C2: with a non-empty gap collection and end time strictly after the
start time, `calculate_metrics` returns latency `end - start`,
time-to-first-token `first - start`, inter-token latency the arithmetic mean
of the gaps, and tokens-per-second the token count divided by the latency. -/
theorem calculate_metrics_spec (start_time end_time first_token_time : ℚ)
    (token_times : List ℚ) (token_count : ℤ)
    (hne : token_times ≠ []) (hlt : start_time < end_time) :
    calculate_metrics start_time end_time first_token_time token_times token_count
      = .ok
      { latency := end_time - start_time
        time_to_first_token := first_token_time - start_time
        inter_token_latency := token_times.sum / token_times.length
        tokens_per_second := (token_count : ℚ) / (end_time - start_time) } := by
  have h1 : token_times.length ≠ 0 := by simpa using hne
  have h2 : end_time - start_time ≠ 0 := sub_ne_zero.mpr (ne_of_gt hlt)
  simp [calculate_metrics, h1, h2]

/-- Witness for C2 at concrete times, gaps and count. -/
theorem calculate_metrics_spec_witness :
    calculate_metrics 1 3 2 [(1 : ℚ)/2, (1 : ℚ)/4] 4
      = .ok { latency := 2
              time_to_first_token := 1
              inter_token_latency := (3 : ℚ)/8
              tokens_per_second := 2 } := by
  have h := calculate_metrics_spec 1 3 2 [(1 : ℚ)/2, (1 : ℚ)/4] 4
    (by simp) (by norm_num)
  rw [h]
  norm_num

/-- Claim C3 (the code at the failing input): `calculate_metrics` on an empty
gap collection raises `ZeroDivisionError` (from `sum(token_times) /
len(token_times)` with `len` zero), not the spec's `InsufficientDataError`. -/
theorem calculate_metrics_empty_gaps_zero_division
    (start_time end_time first_token_time : ℚ) (token_count : ℤ) :
    calculate_metrics start_time end_time first_token_time [] token_count
      = .error .zeroDivisionError := by
  simp [calculate_metrics]

/-- Claim C4: whenever `end_time - start_time` is zero, `calculate_metrics`
fails with `ZeroDivisionError`; and every record it does return arose from a
non-empty gap collection and a non-zero latency, i.e. no division by zero is
silently turned into a value. -/
theorem calculate_metrics_zero_latency :
    (∀ (s e f : ℚ) (gaps : List ℚ) (c : ℤ), e - s = 0 →
      calculate_metrics s e f gaps c = .error .zeroDivisionError) ∧
    (∀ (s e f : ℚ) (gaps : List ℚ) (c : ℤ) (r : MetricsRecord),
      calculate_metrics s e f gaps c = .ok r → gaps ≠ [] ∧ e - s ≠ 0) := by
  constructor
  · intro s e f gaps c h0
    cases gaps with
    | nil => simp [calculate_metrics]
    | cons a l => simp [calculate_metrics, h0]
  · intro s e f gaps c r h
    by_cases hg : gaps.length = 0
    · simp [calculate_metrics, hg] at h
    · by_cases h0 : e - s = 0
      · simp [calculate_metrics, hg, h0] at h
      · exact ⟨by simpa using hg, h0⟩

/-- Witness for C4: zero latency with a non-empty gap collection still raises
`ZeroDivisionError`. -/
theorem calculate_metrics_zero_latency_witness :
    calculate_metrics 2 2 3 [(1 : ℚ)] 5 = .error .zeroDivisionError :=
  calculate_metrics_zero_latency.1 2 2 3 [(1 : ℚ)] 5 (by norm_num)

/-- Claim C5: the terminator frame is exactly the declared sentinel followed
by the seven labelled fields in order — integer token counts, the raw cost,
the three latency statistics at five decimal places and the throughput at two
— where each fixed-point field ends in a dot followed by exactly that many
digit characters. -/
theorem get_end_token_string_spec (u : UsageRecord) (m : MetricsRecord) :
    get_end_token_string u m =
      "<END_TOKEN>"
        ++ ",input_tokens=" ++ toString u.input_tokens
        ++ ",output_tokens=" ++ toString u.output_tokens
        ++ ",cost=" ++ pyFloatRepr u.cost
        ++ ",latency=" ++ formatFixed m.latency 5
        ++ ",time_to_first_token=" ++ formatFixed m.time_to_first_token 5
        ++ ",inter_token_latency=" ++ formatFixed m.inter_token_latency 5
        ++ ",tokens_per_second=" ++ formatFixed m.tokens_per_second 2 ∧
    (∃ a fc, formatFixed m.latency 5 = a ++ "." ++ String.mk fc ∧
      fc.length = 5 ∧ fc.all Char.isDigit = true) ∧
    (∃ a fc, formatFixed m.time_to_first_token 5 = a ++ "." ++ String.mk fc ∧
      fc.length = 5 ∧ fc.all Char.isDigit = true) ∧
    (∃ a fc, formatFixed m.inter_token_latency 5 = a ++ "." ++ String.mk fc ∧
      fc.length = 5 ∧ fc.all Char.isDigit = true) ∧
    (∃ a fc, formatFixed m.tokens_per_second 2 = a ++ "." ++ String.mk fc ∧
      fc.length = 2 ∧ fc.all Char.isDigit = true) :=
  ⟨rfl, formatFixed_shape m.latency 5, formatFixed_shape m.time_to_first_token 5,
    formatFixed_shape m.inter_token_latency 5, formatFixed_shape m.tokens_per_second 2⟩

/-- Claim C6: a chat request whose model is absent from the provider's
configured model mapping fails with the unsupported-model error
(`HTTPException(400, "Model ... is not supported by ...")`) and with zero
upstream network calls performed. -/
theorem chat_unsupported_model (p : Provider) (req : ChatRequest)
    (ms : List (String × ModelConfig))
    (hms : p.config.models = some ms)
    (habsent : List.lookup req.model ms = none) :
    chat p req = (.error (.httpException 400
      ("Model " ++ req.model ++ " is not supported by " ++ p.config.name)), 0) := by
  simp [chat, hms, habsent]

/-- Witness for C6: requesting model `"nope"` from the one-model provider. -/
theorem chat_unsupported_model_witness :
    chat witProvider ⟨none, "nope", "hi", none, false, false⟩
      = (.error (.httpException 400
          ("Model " ++ "nope" ++ " is not supported by " ++ "Acme")), 0) :=
  chat_unsupported_model witProvider ⟨none, "nope", "hi", none, false, false⟩
    [("m", witModelConfig)] rfl (by decide)

/-- Claim C7: a chat request carrying no caller-supplied key, against a
provider with no configured key, fails with `MissingCredentialsError` and
performs zero upstream calls (the model itself being supported, so that the
credential check is what fails). -/
theorem adapter_chat_missing_credentials (p : Provider) (req : ChatRequest)
    (upstream : String → String → String) (mc : ModelConfig)
    (hmodel : List.lookup req.model (p.config.models.getD []) = some mc)
    (hkey : req.api_key = none)
    (hcfg : p.config.keys = none ∨ p.config.keys = some []) :
    adapter_chat p req upstream = (.error .missingCredentialsError, 0) := by
  rcases hcfg with h | h <;>
    simp [adapter_chat, hmodel, hkey, h, Option.orElse]

/-- Witness for C7: a keyless request for the supported model `"m"` against
the keyless provider. -/
theorem adapter_chat_missing_credentials_witness :
    adapter_chat witProvider ⟨none, "m", "hi", none, false, false⟩
        (fun _ input => input)
      = (.error .missingCredentialsError, 0) :=
  adapter_chat_missing_credentials witProvider ⟨none, "m", "hi", none, false, false⟩
    (fun _ input => input) witModelConfig (by decide) rfl (.inl rfl)

/-- Claim C8: the tokenizer resolver distinguishes exactly the identifiers
`"anthropic"` and `"cohere"` (two vendor-specific strategies), returns the
default `cl100k_base` byte-pair encoding for every other identifier, and the
three strategies are pairwise distinct. -/
theorem tokenizer_resolver_spec :
    _get_tokenizer "anthropic" = .anthropicTokenizer ∧
    _get_tokenizer "cohere" = .cohereCommandNightly ∧
    (∀ p : String, p ≠ "anthropic" → p ≠ "cohere" →
      _get_tokenizer p = .cl100kBase) ∧
    (TokenizerStrategy.anthropicTokenizer ≠ .cohereCommandNightly ∧
     TokenizerStrategy.anthropicTokenizer ≠ .cl100kBase ∧
     TokenizerStrategy.cohereCommandNightly ≠ .cl100kBase) :=
  ⟨rfl, rfl, fun p h1 h2 => by simp [_get_tokenizer, h1, h2], by decide⟩

/-- Witness for C8: an unrecognized identifier falls back to the default. -/
theorem tokenizer_resolver_spec_witness :
    _get_tokenizer "acme" = .cl100kBase :=
  tokenizer_resolver_spec.2.2.1 "acme" (by decide) (by decide)

/-- A registered provider with no configured models, for the C9
counterexample. -/
def acmeNoModels : ProviderConfig := ⟨"acme", "Acme", true, false, none, none⟩

/-- Counterexample to C9 as stated: filtering `get_models` by a registered
provider that has no configured models does not return a mapping for it — it
raises `KeyError` (`all_models[provider]` on a table the provider was never
added to). -/
theorem get_models_filter_counterexample :
    get_models ⟨[("acme", acmeNoModels)]⟩ (some "acme") = .error .keyError :=
  rfl

/-- Claim C9 as amended: with no filter (or a falsy one) `get_models` returns
the table over providers having a non-empty model table; with a truthy filter
naming a registered provider whose model table is present and non-empty it
returns just that provider's display name and model identifiers — an entry,
not a mapping — and it raises `KeyError` for any other filter value. The
positive filtered case is proved here; the `KeyError` case is the
counterexample above. -/
theorem get_models_filtered_spec (config : EngineConfig) (p : String)
    (pc : ProviderConfig) (ms : List (String × ModelConfig))
    (hp : p ≠ "")
    (hfind : List.lookup p config.providers = some pc)
    (hms : pc.models = some ms) (hne : ¬ ms.isEmpty) :
    get_models config (some p)
      = .ok (.one ⟨pc.name, ms.map Prod.fst⟩) := by
  have key : List.lookup p (modelsTable config (some p))
      = some ⟨pc.name, ms.map Prod.fst⟩ := by
    obtain ⟨l⟩ := config
    induction l with
    | nil => simp at hfind
    | cons hd tl ih =>
      by_cases hk : p = hd.1
      · have hpc : pc = hd.2 := by
          simp [List.lookup, ← hk] at hfind
          exact hfind.symm
        simp only [modelsTable, List.filterMap_cons]
        rw [← hk]
        simp [hp, hpc ▸ hms, hne, List.lookup, hpc]
      · have hfind' : List.lookup p tl = some pc := by
          simpa [List.lookup, hk, Ne.symm, show (p == hd.1) = false by
            simpa using hk] using hfind
        have step : modelsTable ⟨hd :: tl⟩ (some p)
            = modelsTable ⟨tl⟩ (some p) := by
          simp only [modelsTable, List.filterMap_cons]
          simp [hp, hk]
        rw [step]
        exact ih hfind'
  simp [get_models, hp, key]

/-- Witness for the amended C9 at a concrete configuration. -/
theorem get_models_filtered_spec_witness :
    get_models ⟨[("acme", ⟨"acme", "Acme", true, false, none,
        some [("m", witModelConfig)]⟩)]⟩ (some "acme")
      = .ok (.one ⟨"Acme", ["m"]⟩) :=
  get_models_filtered_spec
    ⟨[("acme", ⟨"acme", "Acme", true, false, none, some [("m", witModelConfig)]⟩)]⟩
    "acme" ⟨"acme", "Acme", true, false, none, some [("m", witModelConfig)]⟩
    [("m", witModelConfig)] (by decide) (by decide) rfl (by decide)

/-- Claim C10: `generate_response` fails (with the `AttributeError` of
`None.model_dump()`) exactly when the request's parameter bag is `None`; when
a bag is present, every other field of the returned response is determined
without reference to the bag, which is only echoed in `parameters`. -/
theorem generate_response_requires_parameters :
    (∀ (id : String) (ts : ℚ) (req : ChatRequest) (out : String)
        (u : UsageRecord) (m : MetricsRecord), req.parameters = none →
      generate_response id ts req out u m = .error .attributeError) ∧
    (∀ (id : String) (ts : ℚ) (req : ChatRequest) (out : String)
        (u : UsageRecord) (m : MetricsRecord) (ps : ParamBag),
        req.parameters = some ps →
      generate_response id ts req out u m
        = .ok ⟨id, req.chat_input, out, ts, req.model, u, m, ps.fields⟩) := by
  constructor
  · intro id ts req out u m h
    simp [generate_response, h]
  · intro id ts req out u m ps h
    simp [generate_response, h]

/-- Witness for C10: a request whose `parameters` field is `None`. -/
theorem generate_response_requires_parameters_witness :
    generate_response "id0" 7 ⟨none, "m", "hi", none, false, false⟩ "out"
        ⟨1, 2, 3, 4⟩ ⟨1, 1, 1, 1⟩
      = .error .attributeError :=
  generate_response_requires_parameters.1 "id0" 7
    ⟨none, "m", "hi", none, false, false⟩ "out" ⟨1, 2, 3, 4⟩ ⟨1, 1, 1, 1⟩ rfl

end LLMstudio
